import Mathlib

/-!
# Verification of the `re-report` upload form

The repository is a browser front-end with two submission variants:

* `src/App.jsx` — component `ReportGenerator` with its inline `handleSubmit`:
  validates the selected file first, then the title after `trim()`; keeps a
  `loading` flag (the submit button is `disabled={loading}`); on a non-2xx
  response parses the body with `response.json()` and shows
  `err.error || "Failed to generate report."`; any thrown error (including a
  failing `response.json()`) lands in the `catch` branch which shows
  `"Network error. Please try again."`.

* `src/unnamed/part_001` — component `App` with `handleSubmit` delegating the
  request to `analyzeData` from `src/api.js`: validates `!name || !file`
  (no trimming, a single combined message), has no loading flag, appends the
  name untrimmed, and on failure shows `"Failed to generate PDF: " + err.message`
  where `analyzeData` throws `` `Server error: ${res.status}` `` for any
  non-2xx response without reading the body.

We embed both handlers as pure functions over an explicit state, model the
network by the outcome the single `fetch` would deliver, and model
`URL.createObjectURL` by a fresh natural-number identifier drawn from a
counter (the code never calls `URL.revokeObjectURL`, so the revocation ledger
an embedding must carry stays empty).
-/

namespace ReReport

/-- A multipart form-data body: ordered list of (field name, field value)
pairs; a file field's value is the file content. -/
abbrev FormBody := List (String × String)

/-- How the single `fetch` of a submit attempt settles.

* `success body` — 2xx response whose blob body is `body`;
* `httpError status errField` — non-2xx response whose body parses as JSON,
  `errField` being the value of its `error` key (`none` when absent);
* `httpErrorBadJson status` — non-2xx response whose body is not parseable
  JSON (`response.json()` rejects);
* `networkError msg` — the request could not complete at all; `msg` is the
  `message` of the error `fetch` rejects with. -/
inductive FetchOutcome where
  | success (body : String)
  | httpError (status : Nat) (errField : Option String)
  | httpErrorBadJson (status : Nat)
  | networkError (msg : String)
deriving DecidableEq, Repr

/-- Model of JavaScript `String.prototype.trim()`: drop leading and trailing
whitespace characters. (Core `String.trim` is not used because its byte-level
implementation does not reduce in the kernel; this list-level definition is
extensionally the same trimming.) -/
def jsTrim (s : String) : String :=
  ⟨((s.data.dropWhile Char.isWhitespace).reverse.dropWhile Char.isWhitespace).reverse⟩

/-- JavaScript `v || d` on an optional string field: the default is taken
when the field is absent or an empty string (both falsy). -/
def jsOrDefault (v : Option String) (d : String) : String :=
  match v with
  | some s => if s.isEmpty then d else s
  | none => d

/-! ## Variant A: `ReportGenerator` in `src/App.jsx` -/

/-- The component state of `ReportGenerator` relevant to submission:
`loading`, `pdfUrl` (an object URL, modelled by its identifier) and
`error`. -/
structure StateA where
  loading : Bool
  pdfUrl : Option Nat
  error : Option String
deriving DecidableEq, Repr

/-- Initial state: `useState(false)`, `useState(null)`, `useState(null)`. -/
def initA : StateA := ⟨false, none, none⟩

/-- Everything one call of a submit handler produces: the final component
state, the request bodies issued (in order), the object URLs created and
revoked during the call, and the object-URL counter afterwards. -/
structure SubmitOut (σ : Type) where
  state : σ
  requests : List FormBody
  created : List Nat
  revoked : List Nat
  nextId : Nat
deriving DecidableEq, Repr

/-- `handleSubmit` of `ReportGenerator` (src/App.jsx lines 10-51), run to
completion with the fetch settling as `outcome`: clear `error` and `pdfUrl`;
reject a missing file, then a title blank after `trim()`; otherwise build the
form data `file`/`reportTitle` (title trimmed), issue the one request, and on
`!response.ok` show `err.error || "Failed to generate report."` from the
parsed body, while a rejecting `response.json()` or a transport failure lands
in `catch` showing `"Network error. Please try again."`; a 2xx body becomes a
fresh object URL stored in `pdfUrl`. `loading` is set true before the fetch
and false in every terminating branch (`finally`). -/
def handleSubmitA (reportTitle : String) (file : Option String)
    (outcome : FetchOutcome) (s : StateA) (nextId : Nat) : SubmitOut StateA :=
  let s0 : StateA := { s with error := none, pdfUrl := none }
  match file with
  | none =>
    ⟨{ s0 with error := some "Please upload a CSV file." }, [], [], [], nextId⟩
  | some f =>
    if (jsTrim reportTitle).isEmpty then
      ⟨{ s0 with error := some "Please enter a report title." }, [], [], [], nextId⟩
    else
      let body : FormBody := [("file", f), ("reportTitle", jsTrim reportTitle)]
      match outcome with
      | .success _ =>
        ⟨{ s0 with
            pdfUrl := some nextId
            loading := false },
          [body], [nextId], [], nextId + 1⟩
      | .httpError _ errField =>
        ⟨{ s0 with
            error := some (jsOrDefault errField "Failed to generate report.")
            loading := false },
          [body], [], [], nextId⟩
      | .httpErrorBadJson _ =>
        ⟨{ s0 with
            error := some "Network error. Please try again."
            loading := false },
          [body], [], [], nextId⟩
      | .networkError _ =>
        ⟨{ s0 with
            error := some "Network error. Please try again."
            loading := false },
          [body], [], [], nextId⟩

/-! ## Variant B: `App` in `src/unnamed/part_001` with `analyzeData` of `src/api.js` -/

/-- The component state of `App`: `pdfUrl` and `error` (there is no loading
flag in this variant). -/
structure StateB where
  pdfUrl : Option Nat
  error : Option String
deriving DecidableEq, Repr

/-- Initial state of `App`. -/
def initB : StateB := ⟨none, none⟩

/-- `analyzeData` of `src/api.js`: POST the payload; on a non-2xx response
throw `` `Server error: ${res.status}` `` without reading the body; on 2xx
read the blob and return a fresh object URL. The result is the thrown
message or the pair (object URL, updated counter). -/
def analyzeData (outcome : FetchOutcome) (nextId : Nat) :
    Except String (Nat × Nat) :=
  match outcome with
  | .success _ => .ok (nextId, nextId + 1)
  | .httpError status _ => .error ("Server error: " ++ toString status)
  | .httpErrorBadJson status => .error ("Server error: " ++ toString status)
  | .networkError msg => .error msg

/-- `handleSubmit` of `App` (src/unnamed/part_001 lines 10-29): clear `error`
(but not `pdfUrl`); reject when `!name || !file` with one combined message;
otherwise build the form data `agentName`/`file` (name not trimmed), call
`analyzeData`, store the returned URL on success, and on any thrown error
show `"Failed to generate PDF: " + err.message`. -/
def handleSubmitB (name : String) (file : Option String)
    (outcome : FetchOutcome) (s : StateB) (nextId : Nat) : SubmitOut StateB :=
  let s0 : StateB := { s with error := none }
  if name.isEmpty || file.isNone then
    ⟨{ s0 with error := some "Please enter a name and upload a CSV file." },
      [], [], [], nextId⟩
  else
    match file with
    | none =>
      ⟨{ s0 with error := some "Please enter a name and upload a CSV file." },
        [], [], [], nextId⟩
    | some f =>
      let body : FormBody := [("agentName", name), ("file", f)]
      match analyzeData outcome nextId with
      | .ok (url, nid) =>
        ⟨{ s0 with pdfUrl := some url }, [body], [url], [], nid⟩
      | .error m =>
        ⟨{ s0 with error := some ("Failed to generate PDF: " ++ m) },
          [body], [], [], nextId⟩

/-! ## Event-trace semantics

To reason about sequences of submit attempts and network completions we turn
each handler into a step function on a machine state that also counts the
requests currently in flight. A `submit` event is the user submitting the
form; a `resolve` event is the settling of one outstanding `fetch`. In
variant A the submit button is `disabled={loading}` (src/App.jsx line 83),
so a submit event arriving while `loading` does nothing; variant B has no
such guard. -/

/-- A user interaction or network completion, as seen by a component. -/
inductive Event where
  | submit (title : String) (file : Option String)
  | resolve (outcome : FetchOutcome)
deriving DecidableEq, Repr

/-- Machine state of the `ReportGenerator` component: its three state
variables, the number of outstanding requests, and the object-URL
counter. -/
structure MachA where
  loading : Bool
  pdfUrl : Option Nat
  error : Option String
  inflight : Nat
  nextId : Nat
deriving DecidableEq, Repr

/-- The `ReportGenerator` component before any event. -/
def initMachA : MachA := ⟨false, none, none, 0, 0⟩

/-- One event of the `ReportGenerator` component. A submit while `loading`
is dropped by the disabled button; otherwise the synchronous part of
`handleSubmit` runs: clear `error`/`pdfUrl`, validate, and on valid input
start the fetch (`loading := true`). A resolve with nothing in flight is
impossible in the browser and leaves the state unchanged; otherwise the
continuation after `await` runs with the given outcome, ending with
`setLoading(false)` from the `finally`/early-return paths. -/
def stepA (s : MachA) : Event → MachA
  | .submit title file =>
    if s.loading then s
    else
      let s0 : MachA := { s with error := none, pdfUrl := none }
      match file with
      | none => { s0 with error := some "Please upload a CSV file." }
      | some _ =>
        if (jsTrim title).isEmpty then
          { s0 with error := some "Please enter a report title." }
        else
          { s0 with
              loading := true
              inflight := s.inflight + 1 }
  | .resolve o =>
    if s.inflight = 0 then s
    else
      let s1 : MachA := { s with
        inflight := s.inflight - 1
        loading := false }
      match o with
      | .success _ =>
        { s1 with
            pdfUrl := some s.nextId
            nextId := s.nextId + 1 }
      | .httpError _ errField =>
        { s1 with error := some (jsOrDefault errField "Failed to generate report.") }
      | .httpErrorBadJson _ =>
        { s1 with error := some "Network error. Please try again." }
      | .networkError _ =>
        { s1 with error := some "Network error. Please try again." }

/-- The `ReportGenerator` state after a sequence of events. -/
def runA (evs : List Event) : MachA := evs.foldl stepA initMachA

/-- Machine state of the `App` component: its two state variables, the
outstanding-request count, the object-URL counter, and the total number of
requests ever issued. -/
structure MachB where
  pdfUrl : Option Nat
  error : Option String
  inflight : Nat
  nextId : Nat
  totalReq : Nat
deriving DecidableEq, Repr

/-- The `App` component before any event. -/
def initMachB : MachB := ⟨none, none, 0, 0, 0⟩

/-- One event of the `App` component. Nothing disables its submit button:
every submit event runs `handleSubmit`, which clears `error` (not `pdfUrl`),
validates `!name || !file`, and on valid input issues a request through
`analyzeData`. A resolve applies the continuation of one outstanding
request. -/
def stepB (s : MachB) : Event → MachB
  | .submit name file =>
    let s0 : MachB := { s with error := none }
    if name.isEmpty || file.isNone then
      { s0 with error := some "Please enter a name and upload a CSV file." }
    else
      { s0 with
          inflight := s.inflight + 1
          totalReq := s.totalReq + 1 }
  | .resolve o =>
    if s.inflight = 0 then s
    else
      let s1 : MachB := { s with inflight := s.inflight - 1 }
      match analyzeData o s.nextId with
      | .ok (url, nid) =>
        { s1 with
            pdfUrl := some url
            nextId := nid }
      | .error m =>
        { s1 with error := some ("Failed to generate PDF: " ++ m) }

/-- The `App` state after a sequence of events. -/
def runB (evs : List Event) : MachB := evs.foldl stepB initMachB

/-! ## Abstraction to the spec's state machine -/

/-- The spec's Submission Result alternatives. -/
inductive Phase where
  | idle
  | pending
  | success
  | failed
deriving DecidableEq, Repr

/-- Reading the spec's Submission Result off a `ReportGenerator` state:
Pending while `loading`, Success when a resource reference is held, Failed
when an error message is held, Idle otherwise. -/
def phaseA (s : MachA) : Phase :=
  if s.loading then .pending
  else
    match s.pdfUrl with
    | some _ => .success
    | none =>
      match s.error with
      | some _ => .failed
      | none => .idle

/-- A submit attempt the spec calls valid: a file is selected and the title
is non-blank after trimming. -/
def validInput (title : String) (file : Option String) : Prop :=
  file.isSome = true ∧ (jsTrim title).isEmpty = false

instance (title : String) (file : Option String) :
    Decidable (validInput title file) :=
  inferInstanceAs (Decidable (_ ∧ _))

/-- Whether a fetch outcome is the success case. -/
def okOutcome : FetchOutcome → Bool
  | .success _ => true
  | _ => false

/-- The transitions the spec's state machine allows for one event, with a
stutter (`s' = s`) for events the component ignores. -/
def allowedA (s s' : MachA) : Event → Prop
  | .submit t f =>
    (phaseA s = .pending ∧ s' = s) ∨
    (phaseA s ≠ .pending ∧ validInput t f ∧ phaseA s' = .pending) ∨
    (phaseA s ≠ .pending ∧ ¬validInput t f ∧ phaseA s' = .failed)
  | .resolve o =>
    (phaseA s ≠ .pending ∧ s' = s) ∨
    (phaseA s = .pending ∧ okOutcome o = true ∧ phaseA s' = .success) ∨
    (phaseA s = .pending ∧ okOutcome o = false ∧ phaseA s' = .failed)

/-- Invariant of the `ReportGenerator` machine: the in-flight count mirrors
`loading` (so it never exceeds 1), while a request is outstanding neither a
result nor an error is held, and a result and an error are never held
together. -/
def invA (s : MachA) : Prop :=
  s.inflight = (if s.loading then 1 else 0) ∧
  (s.loading = true → s.pdfUrl = none ∧ s.error = none) ∧
  ¬(s.pdfUrl.isSome = true ∧ s.error.isSome = true)

/-- Object URLs still live after a sequence of creations and revocations:
those created and never revoked. -/
def liveRefs (created revoked : List Nat) : List Nat :=
  created.filter (fun u => !(revoked.contains u))

/-- Two consecutive runs of the `ReportGenerator` handler, the second
starting from the state and object-URL counter the first left behind. -/
def twiceA (t1 t2 : String) (f1 f2 : Option String) (o1 o2 : FetchOutcome) :
    SubmitOut StateA × SubmitOut StateA :=
  let r1 := handleSubmitA t1 f1 o1 initA 0
  (r1, handleSubmitA t2 f2 o2 r1.state r1.nextId)

/-- Two consecutive runs of the `App` handler, the second starting from the
state and object-URL counter the first left behind. -/
def twiceB (t1 t2 : String) (f1 f2 : Option String) (o1 o2 : FetchOutcome) :
    SubmitOut StateB × SubmitOut StateB :=
  let r1 := handleSubmitB t1 f1 o1 initB 0
  (r1, handleSubmitB t2 f2 o2 r1.state r1.nextId)

/-! ## Helper lemmas about the `ReportGenerator` machine -/

/-- The initial `ReportGenerator` state satisfies the invariant. -/
theorem invA_init : invA initMachA := by
  refine ⟨rfl, fun h => by simp [initMachA] at h, ?_⟩
  simp [initMachA]

/-- `stepA` preserves the invariant. -/
theorem invA_step (s : MachA) (e : Event) (h : invA s) : invA (stepA s e) := by
  obtain ⟨h1, h2, h3⟩ := h
  cases e with
  | submit t f =>
    cases hsl : s.loading with
    | true =>
      simp only [stepA, hsl, if_true]
      exact ⟨h1, h2, h3⟩
    | false =>
      have hin : s.inflight = 0 := by simpa [hsl] using h1
      cases f with
      | none => simp [stepA, hsl, invA, hin]
      | some f =>
        by_cases ht : (jsTrim t).isEmpty
        · simp [stepA, hsl, invA, ht, hin]
        · simp [stepA, hsl, invA, ht, hin]
  | resolve o =>
    by_cases hin : s.inflight = 0
    · simp only [stepA, hin, if_true]
      exact ⟨h1, h2, h3⟩
    · have hsl : s.loading = true := by
        cases hsl : s.loading with
        | false => rw [hsl] at h1; simp at h1; exact absurd h1 hin
        | true => rfl
      obtain ⟨hp, he⟩ := h2 hsl
      have h1' : s.inflight = 1 := by simpa [hsl] using h1
      cases o <;> simp [stepA, hin, invA, hp, he, h1']

/-- The invariant holds in every reachable `ReportGenerator` state. -/
theorem invA_run (evs : List Event) : invA (runA evs) := by
  have key : ∀ (l : List Event) (s : MachA), invA s → invA (l.foldl stepA s) := by
    intro l
    induction l with
    | nil => intro s hs; simpa using hs
    | cons e l ih => intro s hs; exact ih _ (invA_step s e hs)
  exact key evs initMachA invA_init

/-- Under the invariant, every step of the `ReportGenerator` machine is a
transition the spec's state machine allows (or an ignored event). -/
theorem allowedA_step (s : MachA) (e : Event) (h : invA s) :
    allowedA s (stepA s e) e := by
  obtain ⟨h1, h2, h3⟩ := h
  cases e with
  | submit t f =>
    cases hsl : s.loading with
    | true =>
      left
      exact ⟨by simp [phaseA, hsl], by simp [stepA, hsl]⟩
    | false =>
      have hnp : phaseA s ≠ Phase.pending := by
        simp only [phaseA, hsl, if_false]
        cases s.pdfUrl <;> cases s.error <;> simp
      cases f with
      | none =>
        right; right
        refine ⟨hnp, by simp [validInput], ?_⟩
        simp [stepA, hsl, phaseA]
      | some f =>
        by_cases ht : (jsTrim t).isEmpty
        · right; right
          refine ⟨hnp, by simp [validInput, ht], ?_⟩
          simp [stepA, hsl, ht, phaseA]
        · right; left
          refine ⟨hnp, by simp [validInput, ht], ?_⟩
          simp [stepA, hsl, ht, phaseA]
  | resolve o =>
    by_cases hin : s.inflight = 0
    · left
      have hsl : s.loading = false := by
        cases hsl : s.loading with
        | true => rw [hsl] at h1; simp at h1; rw [h1] at hin; exact absurd hin one_ne_zero
        | false => rfl
      constructor
      · simp only [phaseA, hsl, if_false]
        cases s.pdfUrl <;> cases s.error <;> simp
      · simp [stepA, hin]
    · have hsl : s.loading = true := by
        cases hsl : s.loading with
        | false => rw [hsl] at h1; simp at h1; exact absurd h1 hin
        | true => rfl
      obtain ⟨hp, he⟩ := h2 hsl
      have hpend : phaseA s = Phase.pending := by simp [phaseA, hsl]
      cases o with
      | success b =>
        right; left
        exact ⟨hpend, rfl, by simp [stepA, hin, phaseA]⟩
      | httpError st ef =>
        right; right
        exact ⟨hpend, rfl, by simp [stepA, hin, phaseA, hp]⟩
      | httpErrorBadJson st =>
        right; right
        exact ⟨hpend, rfl, by simp [stepA, hin, phaseA, hp]⟩
      | networkError m =>
        right; right
        exact ⟨hpend, rfl, by simp [stepA, hin, phaseA, hp]⟩


/-! ## The claims -/

/-- C1, counterexample. The claim says every submit attempt with a blank or
whitespace-only title issues no network request and ends Failed with a
title-related message. In the `App` variant a whitespace-only name passes the
`!name` check, so the submit does issue a request; and in `ReportGenerator` a
blank title together with a missing file yields the file message, not a
title-related one. -/
theorem c1_counterexample :
    (handleSubmitB " " (some "csv") (.success "pdf") initB 0).requests.length = 1 ∧
    (handleSubmitA " " none (.success "pdf") initA 0).state.error =
      some "Please upload a CSV file." := by
  decide

/-- C1 (amended): In `ReportGenerator`, a submit with a file selected and a
title blank after trimming issues no request and fails with the title
message, and a submit with no file issues no request and fails with the file
message whatever the title; in the `App` variant an empty name issues no
request and fails with the combined message, while a non-empty (even
whitespace-only) name with a file selected does issue a request. -/
theorem c1_blank_title_validation :
    (∀ (t f : String) (o : FetchOutcome) (s : StateA) (n : Nat),
      (jsTrim t).isEmpty = true →
      (handleSubmitA t (some f) o s n).requests = [] ∧
      (handleSubmitA t (some f) o s n).state.error =
        some "Please enter a report title.") ∧
    (∀ (t : String) (o : FetchOutcome) (s : StateA) (n : Nat),
      (handleSubmitA t none o s n).requests = [] ∧
      (handleSubmitA t none o s n).state.error =
        some "Please upload a CSV file.") ∧
    (∀ (f : Option String) (o : FetchOutcome) (s : StateB) (n : Nat),
      (handleSubmitB "" f o s n).requests = [] ∧
      (handleSubmitB "" f o s n).state.error =
        some "Please enter a name and upload a CSV file.") ∧
    (∀ (t f : String) (o : FetchOutcome) (s : StateB) (n : Nat),
      t.isEmpty = false →
      (handleSubmitB t (some f) o s n).requests.length = 1) := by
  refine ⟨?_, ?_, ?_, ?_⟩
  · intro t f o s n ht
    simp [handleSubmitA, ht]
  · intro t o s n
    exact ⟨rfl, rfl⟩
  · intro f o s n
    have he : "".isEmpty = true := by decide
    simp [handleSubmitB, he]
  · intro t f o s n ht
    cases ho : analyzeData o n with
    | ok p => cases p with
      | mk u nid => simp [handleSubmitB, ht, ho]
    | error m => simp [handleSubmitB, ht, ho]

/-- C1, witness for the amended theorem at concrete inputs. -/
theorem c1_blank_title_validation_witness :
    ((handleSubmitA " " (some "csv") (.success "pdf") initA 0).requests = [] ∧
      (handleSubmitA " " (some "csv") (.success "pdf") initA 0).state.error =
        some "Please enter a report title.") ∧
    ((handleSubmitA "T" none (.success "pdf") initA 0).requests = [] ∧
      (handleSubmitA "T" none (.success "pdf") initA 0).state.error =
        some "Please upload a CSV file.") ∧
    ((handleSubmitB "" (some "csv") (.success "pdf") initB 0).requests = [] ∧
      (handleSubmitB "" (some "csv") (.success "pdf") initB 0).state.error =
        some "Please enter a name and upload a CSV file.") ∧
    (handleSubmitB "Ann" (some "csv") (.success "pdf") initB 0).requests.length = 1 :=
  ⟨c1_blank_title_validation.1 " " "csv" (.success "pdf") initA 0 (by decide),
   c1_blank_title_validation.2.1 "T" (.success "pdf") initA 0,
   c1_blank_title_validation.2.2.1 (some "csv") (.success "pdf") initB 0,
   c1_blank_title_validation.2.2.2 "Ann" "csv" (.success "pdf") initB 0 (by decide)⟩

/-- C2, counterexample. The claim says the multipart body of a valid submit
contains the title with surrounding whitespace trimmed. In the `App` variant
the name is appended untrimmed: with name `" Ann "` the only request body
carries `" Ann "`, and neither field equals the trimmed `"Ann"`. -/
theorem c2_counterexample :
    (handleSubmitB " Ann " (some "csvdata") (.success "pdf") initB 0).requests =
      [[("agentName", " Ann "), ("file", "csvdata")]] ∧
    jsTrim " Ann " = "Ann" ∧ " Ann " ≠ "Ann" ∧ "csvdata" ≠ "Ann" := by
  decide

/-- C2 (amended): For every submit with a selected file and a title the
variant accepts, exactly one request is issued; in `ReportGenerator` its body
is the file content together with the trimmed title, while in the `App`
variant the body carries the name exactly as entered, untrimmed. -/
theorem c2_single_request_body :
    (∀ (t f : String) (o : FetchOutcome) (s : StateA) (n : Nat),
      (jsTrim t).isEmpty = false →
      (handleSubmitA t (some f) o s n).requests =
        [[("file", f), ("reportTitle", jsTrim t)]]) ∧
    (∀ (t f : String) (o : FetchOutcome) (s : StateB) (n : Nat),
      t.isEmpty = false →
      (handleSubmitB t (some f) o s n).requests =
        [[("agentName", t), ("file", f)]]) := by
  constructor
  · intro t f o s n ht
    cases o <;> simp [handleSubmitA, ht]
  · intro t f o s n ht
    cases ho : analyzeData o n with
    | ok p => cases p with
      | mk u nid => simp [handleSubmitB, ht, ho]
    | error m => simp [handleSubmitB, ht, ho]

/-- C2, witness for the amended theorem at concrete inputs. -/
theorem c2_single_request_body_witness :
    (handleSubmitA " Q1 " (some "rows") (.success "pdf") initA 0).requests =
      [[("file", "rows"), ("reportTitle", "Q1")]] ∧
    (handleSubmitB " Ann " (some "rows") (.success "pdf") initB 0).requests =
      [[("agentName", " Ann "), ("file", "rows")]] :=
  ⟨by
    have h := c2_single_request_body.1 " Q1 " "rows" (.success "pdf") initA 0 (by decide)
    simpa using h,
   c2_single_request_body.2 " Ann " "rows" (.success "pdf") initB 0 (by decide)⟩

/-- C3, counterexample. The claim says a valid submit answered by a non-2xx
response with a parseable error body ends Failed with exactly the
server-supplied message. In the `App` variant `analyzeData` never reads the
body: a 500 with body field `"bad data"` produces
`"Failed to generate PDF: Server error: 500"`, not `"bad data"`. -/
theorem c3_counterexample :
    (handleSubmitB "Report" (some "csv") (.httpError 500 (some "bad data"))
        initB 0).state.error =
      some "Failed to generate PDF: Server error: 500" ∧
    "Failed to generate PDF: Server error: 500" ≠ "bad data" := by
  decide

/-- C3 (amended): In `ReportGenerator`, a valid submit answered by a non-2xx
response whose body parses with a non-empty `error` field ends Failed with
exactly that server-supplied message; in the `App` variant the server message
is ignored and the state becomes Failed with
`"Failed to generate PDF: Server error: <status>"`. -/
theorem c3_server_message :
    (∀ (t f : String) (st : Nat) (m : String) (s : StateA) (n : Nat),
      (jsTrim t).isEmpty = false → m.isEmpty = false →
      (handleSubmitA t (some f) (.httpError st (some m)) s n).state.error =
        some m) ∧
    (∀ (t f : String) (st : Nat) (ef : Option String) (s : StateB) (n : Nat),
      t.isEmpty = false →
      (handleSubmitB t (some f) (.httpError st ef) s n).state.error =
        some ("Failed to generate PDF: " ++ ("Server error: " ++ toString st))) := by
  constructor
  · intro t f st m s n ht hm
    simp [handleSubmitA, ht, jsOrDefault, hm]
  · intro t f st ef s n ht
    simp [handleSubmitB, ht, analyzeData]

/-- C3, witness for the amended theorem at concrete inputs. -/
theorem c3_server_message_witness :
    (handleSubmitA "Report" (some "csv") (.httpError 500 (some "bad data"))
        initA 0).state.error = some "bad data" ∧
    (handleSubmitB "Report" (some "csv") (.httpError 500 (some "bad data"))
        initB 0).state.error =
      some ("Failed to generate PDF: " ++ ("Server error: " ++ toString 500)) :=
  ⟨c3_server_message.1 "Report" "csv" 500 "bad data" initA 0 (by decide) (by decide),
   c3_server_message.2 "Report" "csv" 500 (some "bad data") initB 0 (by decide)⟩

/-- C4, counterexample. The claim says a valid submit answered by a non-2xx
response with an unparseable body ends Failed with a generic message that
embeds the HTTP status code. In `ReportGenerator` the rejecting
`response.json()` jumps to the `catch` branch: the message is
`"Network error. Please try again."`, identical for statuses 500 and 404, so
it embeds no status code. -/
theorem c4_counterexample :
    (handleSubmitA "Report" (some "csv") (.httpErrorBadJson 500)
        initA 0).state.error = some "Network error. Please try again." ∧
    (handleSubmitA "Report" (some "csv") (.httpErrorBadJson 404)
        initA 0).state.error =
      (handleSubmitA "Report" (some "csv") (.httpErrorBadJson 500)
        initA 0).state.error := by
  decide

/-- C4 (amended): For a valid submit answered by a non-2xx response whose
body cannot be parsed, no resource reference is produced in either variant;
the `App` variant fails with `"Failed to generate PDF: Server error: <status>"`
(embedding the status code, since its client never reads the body), while
`ReportGenerator` falls into its catch-all and fails with the generic
`"Network error. Please try again."`, which does not depend on the status. -/
theorem c4_unparseable_error_body :
    (∀ (t f : String) (st : Nat) (s : StateA) (n : Nat),
      (jsTrim t).isEmpty = false →
      (handleSubmitA t (some f) (.httpErrorBadJson st) s n).state.error =
        some "Network error. Please try again." ∧
      (handleSubmitA t (some f) (.httpErrorBadJson st) s n).state.pdfUrl = none ∧
      (handleSubmitA t (some f) (.httpErrorBadJson st) s n).created = []) ∧
    (∀ (t f : String) (st : Nat) (s : StateB) (n : Nat),
      t.isEmpty = false →
      (handleSubmitB t (some f) (.httpErrorBadJson st) s n).state.error =
        some ("Failed to generate PDF: " ++ ("Server error: " ++ toString st)) ∧
      (handleSubmitB t (some f) (.httpErrorBadJson st) s n).state.pdfUrl =
        s.pdfUrl ∧
      (handleSubmitB t (some f) (.httpErrorBadJson st) s n).created = []) := by
  constructor
  · intro t f st s n ht
    refine ⟨?_, ?_, ?_⟩ <;> simp [handleSubmitA, ht]
  · intro t f st s n ht
    refine ⟨?_, ?_, ?_⟩ <;> simp [handleSubmitB, ht, analyzeData]

/-- C4, witness for the amended theorem at concrete inputs. -/
theorem c4_unparseable_error_body_witness :
    ((handleSubmitA "Report" (some "csv") (.httpErrorBadJson 500)
        initA 0).state.error = some "Network error. Please try again." ∧
      (handleSubmitA "Report" (some "csv") (.httpErrorBadJson 500)
        initA 0).state.pdfUrl = none ∧
      (handleSubmitA "Report" (some "csv") (.httpErrorBadJson 500)
        initA 0).created = []) ∧
    ((handleSubmitB "Report" (some "csv") (.httpErrorBadJson 500)
        initB 0).state.error =
      some ("Failed to generate PDF: " ++ ("Server error: " ++ toString 500)) ∧
      (handleSubmitB "Report" (some "csv") (.httpErrorBadJson 500)
        initB 0).state.pdfUrl = initB.pdfUrl ∧
      (handleSubmitB "Report" (some "csv") (.httpErrorBadJson 500)
        initB 0).created = []) :=
  ⟨c4_unparseable_error_body.1 "Report" "csv" 500 initA 0 (by decide),
   c4_unparseable_error_body.2 "Report" "csv" 500 initB 0 (by decide)⟩

/-- C5, counterexample. The claim says the transport-failure message is
distinct from the message produced for any non-2xx server response. In
`ReportGenerator` a non-2xx response with an unparseable body produces
exactly the transport-failure message `"Network error. Please try again."`. -/
theorem c5_counterexample :
    (handleSubmitA "Report" (some "csv") (.networkError "Failed to fetch")
        initA 0).state.error = some "Network error. Please try again." ∧
    (handleSubmitA "Report" (some "csv") (.httpErrorBadJson 500)
        initA 0).state.error = some "Network error. Please try again." := by
  decide

/-- C5 (amended): A transport-level failure on a valid submit ends Failed
with a generic network message: in `ReportGenerator` the fixed
`"Network error. Please try again."`, distinct from the message of a non-2xx
response whose body parses without an `error` field, but identical to the
message of a non-2xx response with an unparseable body; in the `App` variant
`"Failed to generate PDF: "` followed by the transport error's own message,
distinct from the status message of any non-2xx response whenever that
transport message is not itself `"Server error: <status>"`. -/
theorem c5_network_failure_message :
    (∀ (t f m : String) (s : StateA) (n : Nat),
      (jsTrim t).isEmpty = false →
      (handleSubmitA t (some f) (.networkError m) s n).state.error =
        some "Network error. Please try again.") ∧
    (∀ (t f m : String) (st : Nat) (s s2 : StateA) (n n2 : Nat),
      (jsTrim t).isEmpty = false →
      (handleSubmitA t (some f) (.networkError m) s n).state.error ≠
        (handleSubmitA t (some f) (.httpError st none) s2 n2).state.error) ∧
    (∀ (t f m : String) (s : StateB) (n : Nat),
      t.isEmpty = false →
      (handleSubmitB t (some f) (.networkError m) s n).state.error =
        some ("Failed to generate PDF: " ++ m)) ∧
    (∀ (t f m : String) (st : Nat) (ef : Option String) (s s2 : StateB) (n n2 : Nat),
      t.isEmpty = false → m ≠ "Server error: " ++ toString st →
      (handleSubmitB t (some f) (.networkError m) s n).state.error ≠
        (handleSubmitB t (some f) (.httpError st ef) s2 n2).state.error) := by
  refine ⟨?_, ?_, ?_, ?_⟩
  · intro t f m s n ht
    simp [handleSubmitA, ht]
  · intro t f m st s s2 n n2 ht
    have e1 : (handleSubmitA t (some f) (.networkError m) s n).state.error =
        some "Network error. Please try again." := by simp [handleSubmitA, ht]
    have e2 : (handleSubmitA t (some f) (.httpError st none) s2 n2).state.error =
        some "Failed to generate report." := by
      simp [handleSubmitA, ht, jsOrDefault]
    rw [e1, e2]
    decide
  · intro t f m s n ht
    simp [handleSubmitB, ht, analyzeData]
  · intro t f m st ef s s2 n n2 ht hm
    have e1 : (handleSubmitB t (some f) (.networkError m) s n).state.error =
        some ("Failed to generate PDF: " ++ m) := by
      simp [handleSubmitB, ht, analyzeData]
    have e2 : (handleSubmitB t (some f) (.httpError st ef) s2 n2).state.error =
        some ("Failed to generate PDF: " ++ ("Server error: " ++ toString st)) := by
      simp [handleSubmitB, ht, analyzeData]
    rw [e1, e2]
    intro h
    apply hm
    have h2 := Option.some.inj h
    have hd := congrArg String.data h2
    simp only [String.data_append] at hd
    exact String.ext (List.append_cancel_left hd)

/-- C5, witness for the amended theorem at concrete inputs. -/
theorem c5_network_failure_message_witness :
    (handleSubmitA "Report" (some "csv") (.networkError "Failed to fetch")
        initA 0).state.error = some "Network error. Please try again." ∧
    (handleSubmitA "Report" (some "csv") (.networkError "Failed to fetch")
        initA 0).state.error ≠
      (handleSubmitA "Report" (some "csv") (.httpError 500 none)
        initA 0).state.error ∧
    (handleSubmitB "Report" (some "csv") (.networkError "Failed to fetch")
        initB 0).state.error =
      some ("Failed to generate PDF: " ++ "Failed to fetch") ∧
    (handleSubmitB "Report" (some "csv") (.networkError "Failed to fetch")
        initB 0).state.error ≠
      (handleSubmitB "Report" (some "csv") (.httpError 500 none)
        initB 0).state.error :=
  ⟨c5_network_failure_message.1 "Report" "csv" "Failed to fetch" initA 0 (by decide),
   c5_network_failure_message.2.1 "Report" "csv" "Failed to fetch" 500 initA initA 0 0
     (by decide),
   c5_network_failure_message.2.2.1 "Report" "csv" "Failed to fetch" initB 0 (by decide),
   c5_network_failure_message.2.2.2 "Report" "csv" "Failed to fetch" 500 none initB initB
     0 0 (by decide) (by decide)⟩

/-- C6, counterexample. The claim says at most one request is ever in flight
because a submit while Pending is at minimum ignored. The `App` variant has
no pending guard: two valid submits with no resolution in between leave two
requests in flight. -/
theorem c6_counterexample :
    (runB [Event.submit "Ann" (some "csv"),
           Event.submit "Ann" (some "csv")]).inflight = 2 := by
  decide

/-- C6 (amended): In `ReportGenerator` at most one request is in flight after
any event sequence, because its submit button is disabled while `loading`: a
submit event in a loading state changes nothing. The `App` variant (see the
counterexample) has no such guard. -/
theorem c6_single_inflight :
    (∀ evs : List Event, (runA evs).inflight ≤ 1) ∧
    (∀ (s : MachA) (t : String) (f : Option String),
      s.loading = true → stepA s (.submit t f) = s) := by
  constructor
  · intro evs
    have h := (invA_run evs).1
    rw [h]
    cases (runA evs).loading <;> simp
  · intro s t f hl
    simp [stepA, hl]

/-- C6, witness for the amended theorem at concrete inputs. -/
theorem c6_single_inflight_witness :
    (runA [Event.submit "T" (some "csv")]).inflight ≤ 1 ∧
    stepA ⟨true, none, none, 1, 0⟩ (.submit "T" (some "csv")) =
      ⟨true, none, none, 1, 0⟩ :=
  ⟨c6_single_inflight.1 [Event.submit "T" (some "csv")],
   c6_single_inflight.2 ⟨true, none, none, 1, 0⟩ "T" (some "csv") rfl⟩

/-- C7, counterexample. The claim says the Submission Result is always
exactly one of Idle, Pending, Success or Failed — never an error message and
a success resource at once. The `App` variant clears neither `pdfUrl` on
submit nor has a pending flag: after a success followed by a failing
resubmit, both the prior PDF reference and an error message are held (and
rendered) simultaneously. -/
theorem c7_counterexample :
    (runB [Event.submit "Ann" (some "csv"),
           Event.resolve (.success "pdf"),
           Event.submit "Ann" (some "csv"),
           Event.resolve (.httpError 500 (some "bad data"))]).pdfUrl.isSome = true ∧
    (runB [Event.submit "Ann" (some "csv"),
           Event.resolve (.success "pdf"),
           Event.submit "Ann" (some "csv"),
           Event.resolve (.httpError 500 (some "bad data"))]).error.isSome = true := by
  decide

/-- C7 (amended): The `ReportGenerator` component does satisfy the spec's
machine: in every reachable state a resource reference and an error message
are never held together, a pending (loading) state holds neither, and every
event either changes nothing (submit while pending, resolve with no request
outstanding) or follows the spec's transitions — valid submit from a
non-pending phase to Pending, invalid submit from a non-pending phase to
Failed without entering Pending, resolve of a success to Success, resolve of
a failure to Failed. The `App` variant violates the exclusivity (see the
counterexample). -/
theorem c7_phase_machine (evs : List Event) :
    ¬((runA evs).pdfUrl.isSome = true ∧ (runA evs).error.isSome = true) ∧
    ((runA evs).loading = true →
      (runA evs).pdfUrl = none ∧ (runA evs).error = none) ∧
    (∀ e : Event, allowedA (runA evs) (stepA (runA evs) e) e) := by
  have h := invA_run evs
  exact ⟨h.2.2, h.2.1, fun e => allowedA_step _ e h⟩

/-- C7, witness for the amended theorem on a concrete trace (one valid
submit, so the machine is in the Pending phase) and a concrete resolve
event. -/
theorem c7_phase_machine_witness :
    ¬((runA [Event.submit "T" (some "csv")]).pdfUrl.isSome = true ∧
        (runA [Event.submit "T" (some "csv")]).error.isSome = true) ∧
    ((runA [Event.submit "T" (some "csv")]).pdfUrl = none ∧
      (runA [Event.submit "T" (some "csv")]).error = none) ∧
    allowedA (runA [Event.submit "T" (some "csv")])
      (stepA (runA [Event.submit "T" (some "csv")])
        (.resolve (.success "pdf")))
      (.resolve (.success "pdf")) := by
  obtain ⟨a, b, c⟩ := c7_phase_machine [Event.submit "T" (some "csv")]
  exact ⟨a, b (by decide), c (.resolve (.success "pdf"))⟩

/-- C8, counterexample. The claim says each new resource reference is
invalidated/released before replacement so that at most one live object URL
is retained. Neither variant ever calls `URL.revokeObjectURL`: after two
successful `ReportGenerator` submissions both created object URLs are still
live. -/
theorem c8_counterexample :
    (twiceA "Q1" "Q2" (some "a") (some "b") (.success "p") (.success "q")).1.revoked
        = [] ∧
    (twiceA "Q1" "Q2" (some "a") (some "b") (.success "p") (.success "q")).2.revoked
        = [] ∧
    liveRefs
      ((twiceA "Q1" "Q2" (some "a") (some "b") (.success "p") (.success "q")).1.created
        ++ (twiceA "Q1" "Q2" (some "a") (some "b") (.success "p") (.success "q")).2.created)
      ((twiceA "Q1" "Q2" (some "a") (some "b") (.success "p") (.success "q")).1.revoked
        ++ (twiceA "Q1" "Q2" (some "a") (some "b") (.success "p") (.success "q")).2.revoked)
      = [0, 1] := by
  decide

/-- C8 (amended): After a second successful submission in `ReportGenerator`
the new resource reference replaces the prior one in the component state
(only the newest is held), but the prior object URL is never revoked — the
code contains no revocation — so both references created across the two
submissions remain live. -/
theorem c8_reference_replacement (t1 t2 f1 f2 b1 b2 : String)
    (h1 : (jsTrim t1).isEmpty = false) (h2 : (jsTrim t2).isEmpty = false) :
    (twiceA t1 t2 (some f1) (some f2) (.success b1) (.success b2)).1.state.pdfUrl
        = some 0 ∧
    (twiceA t1 t2 (some f1) (some f2) (.success b1) (.success b2)).2.state.pdfUrl
        = some 1 ∧
    (twiceA t1 t2 (some f1) (some f2) (.success b1) (.success b2)).1.revoked = [] ∧
    (twiceA t1 t2 (some f1) (some f2) (.success b1) (.success b2)).2.revoked = [] ∧
    liveRefs
      ((twiceA t1 t2 (some f1) (some f2) (.success b1) (.success b2)).1.created
        ++ (twiceA t1 t2 (some f1) (some f2) (.success b1) (.success b2)).2.created)
      ((twiceA t1 t2 (some f1) (some f2) (.success b1) (.success b2)).1.revoked
        ++ (twiceA t1 t2 (some f1) (some f2) (.success b1) (.success b2)).2.revoked)
      = [0, 1] := by
  refine ⟨?_, ?_, ?_, ?_, ?_⟩ <;> simp [twiceA, handleSubmitA, h1, h2, liveRefs]

/-- C8, witness for the amended theorem at concrete inputs. -/
theorem c8_reference_replacement_witness :
    (twiceA "Q1" "Q2" (some "a") (some "b") (.success "p") (.success "q")).1.state.pdfUrl
        = some 0 ∧
    (twiceA "Q1" "Q2" (some "a") (some "b") (.success "p") (.success "q")).2.state.pdfUrl
        = some 1 ∧
    (twiceA "Q1" "Q2" (some "a") (some "b") (.success "p") (.success "q")).1.revoked = [] ∧
    (twiceA "Q1" "Q2" (some "a") (some "b") (.success "p") (.success "q")).2.revoked = [] ∧
    liveRefs
      ((twiceA "Q1" "Q2" (some "a") (some "b") (.success "p") (.success "q")).1.created
        ++ (twiceA "Q1" "Q2" (some "a") (some "b") (.success "p") (.success "q")).2.created)
      ((twiceA "Q1" "Q2" (some "a") (some "b") (.success "p") (.success "q")).1.revoked
        ++ (twiceA "Q1" "Q2" (some "a") (some "b") (.success "p") (.success "q")).2.revoked)
      = [0, 1] :=
  c8_reference_replacement "Q1" "Q2" "a" "b" "p" "q" (by decide) (by decide)

/-- C9, counterexample. The claim says repeated invalid submits (missing file
or blank title) keep the total number of network calls at zero. A
whitespace-only title is blank in the spec's sense, yet the `App` variant
accepts it: two such submits issue two network calls. -/
theorem c9_counterexample :
    (twiceB " " " " (some "csv") (some "csv") (.success "p") (.success "q")).1.requests.length
      + (twiceB " " " " (some "csv") (some "csv") (.success "p") (.success "q")).2.requests.length
      = 2 := by
  decide

/-- C9 (amended): Submit attempts each variant's own validation rejects are
idempotent: they issue no request and running the same submit again from the
resulting state reproduces the identical outcome, so repetition accumulates
no network calls. But a non-empty whitespace-only title, blank in the spec's
sense, is not rejected by the `App` variant: every such submit issues one
request. -/
theorem c9_invalid_submit_idempotent :
    (∀ (t : String) (f : Option String) (o : FetchOutcome) (s : StateA) (n : Nat),
      (f = none ∨ (jsTrim t).isEmpty = true) →
      (handleSubmitA t f o s n).requests = [] ∧
      handleSubmitA t f o (handleSubmitA t f o s n).state
          (handleSubmitA t f o s n).nextId = handleSubmitA t f o s n) ∧
    (∀ (t : String) (f : Option String) (o : FetchOutcome) (s : StateB) (n : Nat),
      (t.isEmpty = true ∨ f = none) →
      (handleSubmitB t f o s n).requests = [] ∧
      handleSubmitB t f o (handleSubmitB t f o s n).state
          (handleSubmitB t f o s n).nextId = handleSubmitB t f o s n) ∧
    (∀ (t f : String) (o : FetchOutcome) (s : StateB) (n : Nat),
      t.isEmpty = false → (jsTrim t).isEmpty = true →
      (handleSubmitB t (some f) o s n).requests.length = 1) := by
  refine ⟨?_, ?_, ?_⟩
  · rintro t f o s n (hf | ht)
    · subst hf
      exact ⟨rfl, rfl⟩
    · cases f with
      | none => exact ⟨rfl, rfl⟩
      | some f => simp [handleSubmitA, ht]
  · rintro t f o s n (ht | hf)
    · simp [handleSubmitB, ht]
    · subst hf
      simp [handleSubmitB]
  · intro t f o s n ht _
    cases ho : analyzeData o n with
    | ok p => cases p with
      | mk u nid => simp [handleSubmitB, ht, ho]
    | error m => simp [handleSubmitB, ht, ho]

/-- C9, witness for the amended theorem at concrete inputs. -/
theorem c9_invalid_submit_idempotent_witness :
    ((handleSubmitA "T" none (.success "p") initA 0).requests = [] ∧
      handleSubmitA "T" none (.success "p")
          (handleSubmitA "T" none (.success "p") initA 0).state
          (handleSubmitA "T" none (.success "p") initA 0).nextId =
        handleSubmitA "T" none (.success "p") initA 0) ∧
    ((handleSubmitB "" (some "csv") (.success "p") initB 0).requests = [] ∧
      handleSubmitB "" (some "csv") (.success "p")
          (handleSubmitB "" (some "csv") (.success "p") initB 0).state
          (handleSubmitB "" (some "csv") (.success "p") initB 0).nextId =
        handleSubmitB "" (some "csv") (.success "p") initB 0) ∧
    (handleSubmitB " " (some "csv") (.success "p") initB 0).requests.length = 1 :=
  ⟨c9_invalid_submit_idempotent.1 "T" none (.success "p") initA 0 (Or.inl rfl),
   c9_invalid_submit_idempotent.2.1 "" (some "csv") (.success "p") initB 0
     (Or.inl (by decide)),
   c9_invalid_submit_idempotent.2.2 " " "csv" (.success "p") initB 0
     (by decide) (by decide)⟩

/-- C10: In `ReportGenerator` the file is checked before the title, so a
submit with no file gets the file message `"Please upload a CSV file."`
whatever the title (also when it is blank); in the `App` variant either
missing field gets the single combined message
`"Please enter a name and upload a CSV file."`. -/
theorem c10_validation_order :
    (∀ (t : String) (o : FetchOutcome) (s : StateA) (n : Nat),
      (handleSubmitA t none o s n).state.error =
        some "Please upload a CSV file.") ∧
    (∀ (nm : String) (o : FetchOutcome) (s : StateB) (n : Nat),
      (handleSubmitB nm none o s n).state.error =
        some "Please enter a name and upload a CSV file.") ∧
    (∀ (f : Option String) (o : FetchOutcome) (s : StateB) (n : Nat),
      (handleSubmitB "" f o s n).state.error =
        some "Please enter a name and upload a CSV file.") := by
  refine ⟨fun t o s n => rfl, ?_, ?_⟩
  · intro nm o s n
    simp [handleSubmitB]
  · intro f o s n
    have he : "".isEmpty = true := by decide
    simp [handleSubmitB, he]
